import Mathlib

/-!
Verification of the yagami telegram-client service against its specification.

The definitions below are a shallow embedding of
`services/telegram-client/telegram_client/{handlers,formatter,client,config}.py`.

Modelling conventions:
* A Python dict payload is a record of `Option`-typed fields; `data.get(k)` is
  the field itself, `data.get(k, dflt)` is `Option.getD`, and Python's truthy
  `a or b` on strings/ints is `pyOrStr` / `pyOrInt` (empty string and zero are
  falsy).
* Filesystem and transport are an explicit environment `Env`: the set of
  files existing at entry (`fs0`), the size oracle, the outcome of thumbnail
  preparation (which absorbs its own errors in the source), a transport-failure
  oracle for `send_file`, and a failure oracle for `os.remove`.
* Side effects are recorded in an ordered trace (`List Eff`); exceptions are
  an `Except Err` result.  The current file set is threaded through and
  returned, so deletions and leaked files are observable.
* Python `divmod` is floored division, hence `Int.fdiv` / `Int.fmod`;
  Python `int()` on the non-negative reals appearing here is the floor;
  float arithmetic on ratios is modelled exactly over `ℚ`.
-/

/-- Payload of an inbound bus event (`data : dict` in the source).  Every
recognised key of any handler appears as an optional field; an absent key is
`none`. -/
structure EventData where
  video_id : Option String := none
  title : Option String := none
  channel : Option String := none
  channel_title : Option String := none
  duration : Option String := none
  duration_seconds : Option Int := none
  success : Option Bool := none
  status : Option String := none
  error : Option String := none
  file_path : Option String := none
  thumbnail : Option String := none
  requester_chat_id : Option Int := none
  action : Option String := none
  channel_id : Option String := none
  message : Option String := none
  deriving Repr, DecidableEq

/-- Python `a or b` for an optional string: `None` and `""` are falsy. -/
def pyOrStr (a : Option String) (b : String) : String :=
  match a with
  | some s => if s = "" then b else s
  | none => b

/-- Python `a or b` for an optional integer: `None` and `0` are falsy. -/
def pyOrInt (a : Option Int) (b : Int) : Int :=
  match a with
  | some v => if v = 0 then b else v
  | none => b

/-- Python `f"{n:02d}"`: left-pad with a zero to two characters. -/
def pad2 (n : Int) : String :=
  if 0 ≤ n ∧ n < 10 then "0" ++ toString n else toString n

/-- formatter.format_duration: convert seconds to `H:MM:SS` or `MM:SS`;
`if not seconds` is true for `None` and for `0`.  `divmod` is floored
division (`Int.fdiv`/`Int.fmod`). -/
def format_duration (seconds : Option Int) : String :=
  match seconds with
  | none => "Unknown"
  | some s =>
    if s = 0 then "Unknown"
    else
      if Int.fdiv s 3600 = 0 then
        toString (Int.fdiv (Int.fmod s 3600) 60) ++ ":" ++ pad2 (Int.fmod (Int.fmod s 3600) 60)
      else
        toString (Int.fdiv s 3600) ++ ":" ++ pad2 (Int.fdiv (Int.fmod s 3600) 60)
          ++ ":" ++ pad2 (Int.fmod (Int.fmod s 3600) 60)

/-- CPython `f"{n/den:.1f}"` on the exact rational `n/den`: one decimal
digit, rounding half to even.  (The source formats the nearest binary
double; on the exact decimal values exercised here the two agree.) -/
def fmtDot1 (n den : Int) : String :=
  let t := 10 * n
  let q := t / den
  let r := t % den
  let q2 :=
    if den < 2 * r then q + 1
    else if 2 * r < den then q
    else if q % 2 = 0 then q else q + 1
  toString (q2 / 10) ++ "." ++ toString (q2 % 10)

/-- formatter.format_views: `1.2M` / `45.3K` / raw number; `if not count`
is true for `None` and for `0`. -/
def format_views (count : Option Int) : String :=
  match count with
  | none => "N/A"
  | some c =>
    if c = 0 then "N/A"
    else if 1000000 ≤ c then fmtDot1 c 1000000 ++ "M"
    else if 1000 ≤ c then fmtDot1 c 1000 ++ "K"
    else toString c

/-- formatter._channel: channel name from either field name the poller
might send (`channel_title` before `channel`, default `"Unknown"`). -/
def _channel (d : EventData) : String :=
  pyOrStr d.channel_title (pyOrStr d.channel "Unknown")

/-- formatter.format_watch. -/
def format_watch (d : EventData) : String :=
  "🎬 Watched\n\n" ++ d.title.getD "Unknown" ++ "\nChannel: " ++ _channel d
    ++ "\nDuration: " ++ pyOrStr d.duration (format_duration d.duration_seconds)
    ++ "\n\n🔗 https://youtube.com/watch?v=" ++ d.video_id.getD ""

/-- formatter.format_like. -/
def format_like (d : EventData) : String :=
  "❤️ Liked\n\n" ++ d.title.getD "Unknown" ++ "\nChannel: " ++ _channel d
    ++ "\nDuration: " ++ pyOrStr d.duration (format_duration d.duration_seconds)
    ++ "\n\n⬇️ Downloading for Telegram..."

/-- formatter.format_subscription. -/
def format_subscription (d : EventData) : String :=
  if d.action.getD "subscribed" = "unsubscribed" then
    "👋 Unsubscribed\n\nChannel: " ++ _channel d
  else
    "📺 New Subscription\n\n" ++ _channel d
      ++ "\n\n🔗 https://youtube.com/channel/" ++ d.channel_id.getD ""

/-- formatter.format_video_caption.  Its only parameter is the payload:
the definition in formatter.py accepts no part/total arguments. -/
def format_video_caption (d : EventData) : String :=
  "❤️ " ++ d.title.getD "Video" ++ " — " ++ _channel d ++ " ("
    ++ pyOrStr d.duration (format_duration d.duration_seconds) ++ ")"

/-- handlers.MAX_UPLOAD_BYTES. -/
def MAX_UPLOAD_BYTES : Nat := 1950000000

/-- Exceptions that can escape the delivery pipeline. -/
inductive Err where
  /-- `TypeError`: a call passes keyword arguments the callee does not
  accept (the `format_video_caption(data, part=i, total=total)` call). -/
  | typeError
  /-- The transport layer raised inside `tg.send_file`. -/
  | transport
  deriving Repr, DecidableEq

/-- Observable side effects, in program order. -/
inductive Eff where
  | sendMessage (chat : Int) (text : String)
  | sendFile (chat : Int) (file : String) (caption : String) (thumb : Option String)
  /-- `os.remove` succeeded on `path`. -/
  | remove (path : String)
  /-- `os.remove` failed on `path` and the failure was logged. -/
  | logWarn (path : String)
  deriving Repr, DecidableEq

/-- Trace of side effects of one invocation. -/
abbrev Trace := List Eff

/-- Destination of an effect, when it is a transport send. -/
def Eff.dest : Eff → Option Int
  | .sendMessage chat _ => some chat
  | .sendFile chat _ _ _ => some chat
  | .remove _ => none
  | .logWarn _ => none

/-- Whether an effect is part of file cleanup (a deletion or a logged
deletion failure). -/
def Eff.isCleanup : Eff → Bool
  | .remove _ => true
  | .logWarn _ => true
  | _ => false

/-- Whether an effect is a deletion attempt of the given path. -/
def isRemovalOf (p : String) : Eff → Bool
  | .remove q => q == p
  | .logWarn q => q == p
  | _ => false

/-- Number of deletion attempts of `p` in a trace. -/
def removalCount (tr : Trace) (p : String) : Nat :=
  (tr.filter (isRemovalOf p)).length

/-- External world of one pipeline invocation: the filesystem at entry, the
size oracle, the outcome of `prepare_thumbnail` (which catches all its own
errors and yields a fresh temp path or `None`), whether the single possible
`tg.send_file` call raises, and which `os.remove` calls fail. -/
structure Env where
  fs0 : List String := []
  size : String → Nat := fun _ => 0
  thumbResult : Option String := none
  sendFileFail : Bool := false
  removeFails : String → Bool := fun _ => false

/-- handlers._safe_remove: delete a file if it exists, logging (never
raising) any error.  Threads the current file set. -/
def _safe_remove (env : Env) (fs : List String) : Option String → Trace × List String
  | none => ([], fs)
  | some p =>
    if p = "" then ([], fs)
    else if p ∈ fs then
      if env.removeFails p then ([Eff.logWarn p], fs)
      else ([Eff.remove p], fs.erase p)
    else ([], fs)

/-- handlers.split_video's part count: `math.ceil(file_size / MAX_UPLOAD_BYTES)`. -/
def num_parts (file_size : Nat) : Nat :=
  (file_size + MAX_UPLOAD_BYTES - 1) / MAX_UPLOAD_BYTES

/-- handlers.split_video: the ordered part-path sequence
`f"{file_path}.part{i + 1}.mp4"` for `i in range(num_parts)`.  (The ffmpeg
stream-copy invocations create these files; their contents are outside the
model.) -/
def split_video (file_path : String) (file_size : Nat) : List String :=
  (List.range (num_parts file_size)).map
    (fun i => file_path ++ ".part" ++ toString (i + 1) ++ ".mp4")

/-- The `try:` block of handlers.handle_download_complete (step 6 of the
spec): single upload at or under the ceiling, else split and upload parts.

In the over-ceiling branch the source's first loop iteration executes
`caption = format_video_caption(data, part=i, total=total)`; the definition
of `format_video_caption` accepts no `part`/`total` keyword arguments, so
CPython raises `TypeError` at that call, before any `send_file` and before
any in-loop `_safe_remove(part_path)`.  The part files created by
`split_video` remain in the file set. -/
def uploadStage (env : Env) (target_chat : Int) (d : EventData)
    (file_path : String) (file_size : Nat) (thumb_path : Option String)
    (fs : List String) : Except Err Unit × Trace × List String :=
  if file_size ≤ MAX_UPLOAD_BYTES then
    if env.sendFileFail then (Except.error Err.transport, [], fs)
    else
      (Except.ok (),
       [Eff.sendFile target_chat file_path (format_video_caption d) thumb_path],
       fs)
  else
    match split_video file_path file_size with
    | [] => (Except.ok (), [], fs ++ split_video file_path file_size)
    | _ :: _ => (Except.error Err.typeError, [], fs ++ split_video file_path file_size)

/-- handlers.handle_download_complete.  Returns the result (normal return
or the propagated exception), the effect trace, and the final file set.
The width/height/duration probes and the Telethon attribute list are
carried by the upload call in the source but are not observed by any claim,
so they are not recorded in the trace. -/
def handle_download_complete (env : Env) (chat_id : Int) (d : EventData) :
    Except Err Unit × Trace × List String :=
  let video_id := d.video_id.getD "unknown"
  let target_chat := pyOrInt d.requester_chat_id chat_id
  if d.success.getD false = false then
    (Except.ok (),
     [Eff.sendMessage target_chat
       ("❌ Download failed: " ++ d.title.getD video_id ++ "\n"
         ++ d.error.getD "Unknown error")],
     env.fs0)
  else
    let file_path := d.file_path.getD ""
    if file_path = "" ∨ file_path ∉ env.fs0 then
      (Except.ok (),
       [Eff.sendMessage target_chat ("❌ File not found: " ++ file_path)],
       env.fs0)
    else
      let file_size := env.size file_path
      let thumb_path := env.thumbResult
      let fs1 := match thumb_path with
        | some t => t :: env.fs0
        | none => env.fs0
      let up := uploadStage env target_chat d file_path file_size thumb_path fs1
      let c1 := _safe_remove env up.2.2 (some file_path)
      let c2 := _safe_remove env c1.2 thumb_path
      (up.1, up.2.1 ++ c1.1 ++ c2.1, c2.2)

/-- config.Config (config.py): the exact field set of the dataclass. -/
structure Config where
  api_id : Int
  api_hash : String
  session_string : String
  chat_id_likes : Int
  chat_id_watch_history : Int
  admin_user_id : Int
  nats_url : String
  database_url : String
  deriving Repr, DecidableEq

/-- client.run's `routes` dict: the NATS subjects the client subscribes to,
each mapped to the Telegram chat it posts to, in insertion order. -/
def routes (config : Config) : List (String × Int) :=
  [("youtube.watch", config.chat_id_watch_history),
   ("youtube.likes", config.chat_id_likes),
   ("download.complete", config.chat_id_likes),
   ("system.health", config.admin_user_id)]

/-- handlers.handle_event: dispatch one bus message to its handler. -/
def handle_event (env : Env) (subject : String) (chat_id : Int) (d : EventData) :
    Except Err Unit × Trace × List String :=
  if subject = "youtube.watch" then
    (Except.ok (), [Eff.sendMessage chat_id (format_watch d)], env.fs0)
  else if subject = "youtube.likes" then
    (Except.ok (), [Eff.sendMessage chat_id (format_like d)], env.fs0)
  else if subject = "youtube.subscriptions" then
    (Except.ok (), [Eff.sendMessage chat_id (format_subscription d)], env.fs0)
  else if subject = "download.complete" then
    handle_download_complete env chat_id d
  else if subject = "system.health" then
    (Except.ok (), [Eff.sendMessage chat_id (d.message.getD "Health check received")], env.fs0)
  else
    (Except.ok (), [], env.fs0)

/-- Result of handlers._crop_to_ratio: either the image unmodified or a
`PIL.Image.crop((left, upper, right, lower))` box. -/
inductive CropResult where
  | unchanged
  | box (left upper right lower : Int)
  deriving Repr, DecidableEq

/-- handlers._crop_to_ratio: center-crop an `img_w × img_h` image to the
`target_w / target_h` aspect ratio.  Python float ratios are modelled
exactly over `ℚ`; `int()` of the non-negative products here is the floor,
and `//` is `Int.fdiv`. -/
def _crop_to_ratio (img_w img_h target_w target_h : Nat) : CropResult :=
  let target_ratio : ℚ := (target_w : ℚ) / (target_h : ℚ)
  let img_ratio : ℚ := (img_w : ℚ) / (img_h : ℚ)
  if |target_ratio - img_ratio| < 1 / 100 then
    CropResult.unchanged
  else if target_ratio < img_ratio then
    let new_w : Int := ⌊(img_h : ℚ) * target_ratio⌋
    let offset : Int := Int.fdiv ((img_w : Int) - new_w) 2
    CropResult.box offset 0 (offset + new_w) (img_h : Int)
  else
    let new_h : Int := ⌊(img_w : ℚ) / target_ratio⌋
    let offset : Int := Int.fdiv ((img_h : Int) - new_h) 2
    CropResult.box 0 offset (img_w : Int) (offset + new_h)

/-- Rendering of the claim's words for positive durations: `H:MM:SS` when
at least an hour, else `MM:SS`. -/
def durationSpec (s : Int) : String :=
  if 3600 ≤ s then
    toString (s / 3600) ++ ":" ++ pad2 (s % 3600 / 60) ++ ":" ++ pad2 (s % 60)
  else
    toString (s / 60) ++ ":" ++ pad2 (s % 60)

/-- Rendering of the claim's words for positive view counts: the
`1.2M` / `45.3K`-style scaled count, raw below a thousand. -/
def viewsSpec (c : Int) : String :=
  if 1000000 ≤ c then fmtDot1 c 1000000 ++ "M"
  else if 1000 ≤ c then fmtDot1 c 1000 ++ "K"
  else toString c

/-! ## Helper lemmas -/

/-- Branch-selection: a successful payload with a present, existing file
reaches the upload stage wrapped in the cleanup `finally`. -/
theorem handle_success_eq (env : Env) (chat : Int) (d : EventData)
    (hs : d.success.getD false = true)
    (hff : ¬ (d.file_path.getD "" = "" ∨ d.file_path.getD "" ∉ env.fs0)) :
    handle_download_complete env chat d =
      (let target_chat := pyOrInt d.requester_chat_id chat
       let file_path := d.file_path.getD ""
       let fs1 := match env.thumbResult with
         | some t => t :: env.fs0
         | none => env.fs0
       let up := uploadStage env target_chat d file_path (env.size file_path)
         env.thumbResult fs1
       let c1 := _safe_remove env up.2.2 (some file_path)
       let c2 := _safe_remove env c1.2 env.thumbResult
       (up.1, up.2.1 ++ c1.1 ++ c2.1, c2.2)) := by
  unfold handle_download_complete
  rw [if_neg (by simp [hs]), if_neg hff]

/-- With a size over the ceiling the upload stage raises the `TypeError`
from the caption call, leaving the split part files in the file set. -/
theorem uploadStage_big (env : Env) (target : Int) (d : EventData)
    (fp : String) (sz : Nat) (th : Option String) (fs : List String)
    (h : ¬ sz ≤ MAX_UPLOAD_BYTES) :
    uploadStage env target d fp sz th fs
      = (Except.error Err.typeError, [], fs ++ split_video fp sz) := by
  have hne : split_video fp sz ≠ [] := by
    simp only [split_video, ne_eq, List.map_eq_nil_iff, List.range_eq_nil]
    simp only [num_parts, MAX_UPLOAD_BYTES] at *
    omega
  unfold uploadStage
  rw [if_neg h]
  rcases hsv : split_video fp sz with _ | ⟨a, l⟩
  · exact absurd hsv hne
  · simp [hsv]

/-- Every effect of the upload stage is a `send_file` to the target chat. -/
theorem uploadStage_eff (env : Env) (target : Int) (d : EventData)
    (fp : String) (sz : Nat) (th : Option String) (fs : List String) :
    ∀ e ∈ (uploadStage env target d fp sz th fs).2.1,
      e = Eff.sendFile target fp (format_video_caption d) th := by
  intro e he
  by_cases h1 : sz ≤ MAX_UPLOAD_BYTES
  · unfold uploadStage at he
    rw [if_pos h1] at he
    by_cases h2 : env.sendFileFail
    · simp [h2] at he
    · simp [h2] at he; exact he
  · rw [uploadStage_big env target d fp sz th fs h1] at he
    simp at he

/-- Every effect emitted by `_safe_remove` is a cleanup effect. -/
theorem safe_remove_cleanup (env : Env) (fs : List String) (p : Option String) :
    ∀ e ∈ (_safe_remove env fs p).1, e.isCleanup = true := by
  intro e he
  rcases p with _ | q
  · simp [_safe_remove] at he
  · simp only [_safe_remove] at he
    split_ifs at he <;> simp_all [Eff.isCleanup]

/-- A cleanup effect has no transport destination. -/
theorem cleanup_dest (e : Eff) (h : e.isCleanup = true) : e.dest = none := by
  cases e <;> simp_all [Eff.isCleanup, Eff.dest]

/-- When the path is nonempty and present, `_safe_remove` makes exactly one
deletion attempt: a deletion, or a logged failure. -/
theorem safe_remove_spec (env : Env) (fs : List String) (p : String)
    (hne : p ≠ "") (hmem : p ∈ fs) :
    _safe_remove env fs (some p)
      = if env.removeFails p then ([Eff.logWarn p], fs)
        else ([Eff.remove p], fs.erase p) := by
  simp only [_safe_remove]
  rw [if_neg hne, if_pos hmem]

/-- Every transport effect of a completed-download invocation goes to the
effective destination `requester_chat_id or chat_id`. -/
theorem handle_dest (env : Env) (chat : Int) (d : EventData) :
    ∀ e ∈ (handle_download_complete env chat d).2.1, ∀ c, e.dest = some c →
      c = pyOrInt d.requester_chat_id chat := by
  intro e he c hc
  by_cases hs : d.success.getD false = false
  · simp only [handle_download_complete, hs, if_pos rfl] at he
    simp at he
    subst he
    simp [Eff.dest] at hc
    omega
  · have hs' : d.success.getD false = true := by
      revert hs; cases d.success.getD false <;> simp
    by_cases hff : (d.file_path.getD "" = "" ∨ d.file_path.getD "" ∉ env.fs0)
    · simp only [handle_download_complete] at he
      rw [if_neg (by simp [hs']), if_pos hff] at he
      simp at he
      subst he
      simp [Eff.dest] at hc
      omega
    · rw [handle_success_eq env chat d hs' hff] at he
      simp only at he
      rcases List.mem_append.mp he with h12 | h3
      · rcases List.mem_append.mp h12 with h1 | h2
        · have := uploadStage_eff env (pyOrInt d.requester_chat_id chat) d
            (d.file_path.getD "") (env.size (d.file_path.getD "")) env.thumbResult _ e h1
          subst this
          simp [Eff.dest] at hc
          omega
        · have hcl := safe_remove_cleanup env _ _ e h2
          rw [cleanup_dest e hcl] at hc
          cases hc
      · have hcl := safe_remove_cleanup env _ _ e h3
        rw [cleanup_dest e hcl] at hc
        cases hc

/-! ## Claims -/

/-- C6: a completed-download payload whose success flag is false sends
exactly one formatted failure notice (title plus error text) to the
effective destination and terminates: the trace holds that one message and
nothing else (no upload, no deletion), the result is a normal return, and
the file set is untouched. -/
theorem c6_failure_notice_only (env : Env) (chat : Int) (d : EventData)
    (h : d.success.getD false = false) :
    handle_download_complete env chat d =
      (Except.ok (),
       [Eff.sendMessage (pyOrInt d.requester_chat_id chat)
         ("❌ Download failed: " ++ d.title.getD (d.video_id.getD "unknown")
           ++ "\n" ++ d.error.getD "Unknown error")],
       env.fs0) := by
  simp [handle_download_complete, h]

/-- Witness for C6 at a concrete failed payload. -/
theorem c6_failure_notice_only_witness :
    (({ success := some false, title := some "T", error := some "404" }
        : EventData).success.getD false = false) ∧
    handle_download_complete { } (-100111)
        { success := some false, title := some "T", error := some "404" } =
      (Except.ok (),
       [Eff.sendMessage (-100111) "❌ Download failed: T\n404"],
       []) := by
  refine ⟨by decide, ?_⟩
  have := c6_failure_notice_only { } (-100111)
    { success := some false, title := some "T", error := some "404" } (by decide)
  simpa using this

/-- C8: the segmenter computes `num_parts = ceil(file_size / 1_950_000_000)`
(characterised by the two ceiling bounds), the representative sizes
1,900,000,000 / 2,000,000,000 / 4,000,000,000 give 1 / 2 / 3 parts, and the
returned part-path sequence has exactly `num_parts` entries in ascending
part-index order. -/
theorem c8_segment_count (file_size : Nat) (fp : String) (h : 0 < file_size) :
    MAX_UPLOAD_BYTES * (num_parts file_size - 1) < file_size ∧
    file_size ≤ MAX_UPLOAD_BYTES * num_parts file_size ∧
    (split_video fp file_size).length = num_parts file_size ∧
    (∀ i (hi : i < (split_video fp file_size).length),
        (split_video fp file_size).get ⟨i, hi⟩
          = fp ++ ".part" ++ toString (i + 1) ++ ".mp4") ∧
    num_parts 1900000000 = 1 ∧ num_parts 2000000000 = 2 ∧
    num_parts 4000000000 = 3 := by
  refine ⟨?_, ?_, ?_, ?_, by decide, by decide, by decide⟩
  · simp only [num_parts, MAX_UPLOAD_BYTES] at *
    omega
  · simp only [num_parts, MAX_UPLOAD_BYTES] at *
    omega
  · simp [split_video]
  · intro i hi
    simp [split_video]

/-- Witness for C8 at a 2,000,000,000-byte file. -/
theorem c8_segment_count_witness :
    0 < 2000000000 ∧
    (MAX_UPLOAD_BYTES * (num_parts 2000000000 - 1) < 2000000000 ∧
     2000000000 ≤ MAX_UPLOAD_BYTES * num_parts 2000000000 ∧
     (split_video "/v.mp4" 2000000000).length = num_parts 2000000000 ∧
     (∀ i (hi : i < (split_video "/v.mp4" 2000000000).length),
         (split_video "/v.mp4" 2000000000).get ⟨i, hi⟩
           = "/v.mp4" ++ ".part" ++ toString (i + 1) ++ ".mp4") ∧
     num_parts 1900000000 = 1 ∧ num_parts 2000000000 = 2 ∧
     num_parts 4000000000 = 3) :=
  ⟨by decide, c8_segment_count 2000000000 "/v.mp4" (by decide)⟩

/-- C10: the formatting helpers treat zero like an absent value —
`format_duration` yields `"Unknown"` for `0` exactly as for `None`, and
`format_views` yields `"N/A"` for `0` exactly as for `None`; positive
inputs yield the `H:MM:SS` / `MM:SS` time and the `1.2M` / `45.3K`-style
count (`durationSpec` / `viewsSpec` render the claim's words).  Both
helpers are total Lean functions, so neither raises. -/
theorem c10_zero_like_absent :
    format_duration (some 0) = "Unknown" ∧ format_duration none = "Unknown" ∧
    format_views (some 0) = "N/A" ∧ format_views none = "N/A" ∧
    (∀ s : Int, 0 < s → format_duration (some s) = durationSpec s) ∧
    (∀ c : Int, 0 < c → format_views (some c) = viewsSpec c) ∧
    format_duration (some 3661) = "1:01:01" ∧
    format_duration (some 125) = "2:05" ∧
    format_views (some 1200000) = "1.2M" ∧
    format_views (some 45300) = "45.3K" ∧
    format_views (some 999) = "999" := by
  refine ⟨rfl, rfl, rfl, rfl, ?_, ?_, by decide, by decide, by decide,
    by decide, by decide⟩
  · intro s hs
    have h0 : ¬ s = 0 := by omega
    simp only [format_duration]
    rw [if_neg h0,
      Int.fdiv_eq_ediv s (by norm_num : (0 : Int) ≤ 3600),
      Int.fmod_eq_emod s (by norm_num : (0 : Int) ≤ 3600),
      Int.fdiv_eq_ediv (s % 3600) (by norm_num : (0 : Int) ≤ 60),
      Int.fmod_eq_emod (s % 3600) (by norm_num : (0 : Int) ≤ 60),
      Int.emod_emod_of_dvd s (by norm_num : (60 : Int) ∣ 3600)]
    unfold durationSpec
    by_cases h36 : 3600 ≤ s
    · rw [if_neg (by omega : ¬ s / 3600 = 0), if_pos h36]
    · rw [if_pos (by omega : s / 3600 = 0), if_neg h36]
      have hmod : s % 3600 = s := by omega
      rw [hmod]
  · intro c hc
    have h0 : ¬ c = 0 := by omega
    simp only [format_views, viewsSpec]
    rw [if_neg h0]

/-- Witness for C10's positive-input clauses at 3661 seconds and 45,300
views. -/
theorem c10_zero_like_absent_witness :
    (0 : Int) < 3661 ∧ format_duration (some 3661) = durationSpec 3661 ∧
    (0 : Int) < 45300 ∧ format_views (some 45300) = viewsSpec 45300 :=
  ⟨by decide, (c10_zero_like_absent.2.2.2.2.1) 3661 (by decide),
   by decide, (c10_zero_like_absent.2.2.2.2.2.1) 45300 (by decide)⟩

/-- C2 (failing input): a successful 2,000,000,000-byte download is over
the ceiling, so the loop's first caption call
`format_video_caption(data, part=1, total=2)` raises `TypeError`
(formatter.format_video_caption accepts no part/total parameters): the
invocation uploads nothing — no part is sent, let alone captioned
`part i/total` — and only the cleanup deletions run.  `split_video` did
produce its 2 parts before the exception. -/
theorem c2_multipart_caption_raises :
    handle_download_complete
        { fs0 := ["/v.mp4"], size := fun _ => 2000000000 } 42
        { video_id := some "v1", title := some "T", channel_title := some "Ch",
          duration_seconds := some 120, success := some true,
          file_path := some "/v.mp4" } =
      (Except.error Err.typeError, [Eff.remove "/v.mp4"],
       ["/v.mp4.part1.mp4", "/v.mp4.part2.mp4"]) ∧
    (split_video "/v.mp4" 2000000000).length = 2 := by
  exact ⟨by rfl, by decide⟩

/-- C3 (failing input): in a multi-part delivery of a 2,000,000,000-byte
file no part file is ever deleted — the first per-part step raises before
the upload and before the in-loop `_safe_remove(part_path)` — and both
part files are still in the final file set when the invocation ends; the
trace deletes only the source file and the thumbnail. -/
theorem c3_part_files_not_removed :
    handle_download_complete
        { fs0 := ["/v.mp4"], size := fun _ => 2000000000,
          thumbResult := some "/t.jpg" } 42
        { video_id := some "v1", title := some "T", success := some true,
          file_path := some "/v.mp4" } =
      (Except.error Err.typeError,
       [Eff.remove "/v.mp4", Eff.remove "/t.jpg"],
       ["/v.mp4.part1.mp4", "/v.mp4.part2.mp4"]) ∧
    Eff.remove "/v.mp4.part1.mp4" ∉
      (handle_download_complete
        { fs0 := ["/v.mp4"], size := fun _ => 2000000000,
          thumbResult := some "/t.jpg" } 42
        { video_id := some "v1", title := some "T", success := some true,
          file_path := some "/v.mp4" }).2.1 ∧
    "/v.mp4.part1.mp4" ∈
      (handle_download_complete
        { fs0 := ["/v.mp4"], size := fun _ => 2000000000,
          thumbResult := some "/t.jpg" } 42
        { video_id := some "v1", title := some "T", success := some true,
          file_path := some "/v.mp4" }).2.2 := by
  exact ⟨by rfl, by decide, by decide⟩

/-- C4 counterexample: two payloads identical except that one carries the
success information only in the string `status` field and the other in the
boolean `success` field behave differently — the decision logic reads only
`success`, so the `status`-only payload is treated as a failed download
while the `success` payload proceeds to the file check. -/
theorem c4_status_field_ignored :
    handle_download_complete { } 7
        { title := some "T", status := some "success",
          file_path := some "/v.mp4" } =
      (Except.ok (), [Eff.sendMessage 7 "❌ Download failed: T\nUnknown error"],
       []) ∧
    handle_download_complete { } 7
        { title := some "T", success := some true,
          file_path := some "/v.mp4" } =
      (Except.ok (), [Eff.sendMessage 7 "❌ File not found: /v.mp4"], []) ∧
    (handle_download_complete { } 7
        { title := some "T", status := some "success",
          file_path := some "/v.mp4" }).2.1 ≠
      (handle_download_complete { } 7
        { title := some "T", success := some true,
          file_path := some "/v.mp4" }).2.1 := by
  exact ⟨by rfl, by rfl, by decide⟩

/-- C4 amended: the channel name is accepted from either `channel` or
`channel_title` with identical behaviour, but the success decision reads
only the boolean `success` flag — the `status` field is never consulted, so
changing it never changes the invocation's behaviour (and a payload
carrying only `status` is handled as a failure, per the counterexample). -/
theorem c4_field_tolerance_amended :
    (∀ (d : EventData) (c : String),
        _channel { d with channel := some c, channel_title := none }
          = _channel { d with channel := none, channel_title := some c }) ∧
    (∀ (d : EventData) (c : String),
        format_video_caption { d with channel := some c, channel_title := none }
          = format_video_caption { d with channel := none, channel_title := some c }) ∧
    (∀ (env : Env) (chat : Int) (d : EventData) (s : Option String),
        handle_download_complete env chat { d with status := s }
          = handle_download_complete env chat d) := by
  refine ⟨?_, ?_, ?_⟩
  · intro d c
    simp [_channel, pyOrStr]
  · intro d c
    simp [format_video_caption, _channel, pyOrStr]
  · intro env chat d s
    rfl

/-- C5 (failing input): the router's `routes` table registers exactly four
subjects — `youtube.subscriptions` is not among them, so no handler is ever
subscribed for it — even though the dispatch function `handle_event` does
have a working branch for that subject. -/
theorem c5_subscriptions_not_registered :
    (routes ⟨123, "hash", "sess", -100111, -100333, 5,
        "nats://localhost:4222", ""⟩).map Prod.fst =
      ["youtube.watch", "youtube.likes", "download.complete",
       "system.health"] ∧
    "youtube.subscriptions" ∉
      (routes ⟨123, "hash", "sess", -100111, -100333, 5,
        "nats://localhost:4222", ""⟩).map Prod.fst ∧
    handle_event { } "youtube.subscriptions" (-100222)
        { channel_title := some "SciCh", channel_id := some "UC1" } =
      (Except.ok (),
       [Eff.sendMessage (-100222)
         "📺 New Subscription\n\nSciCh\n\n🔗 https://youtube.com/channel/UC1"],
       []) := by
  exact ⟨by decide, by decide, by rfl⟩

/-- C7 counterexample: a payload in which the requester destination is
present but zero is routed to the category default (Python's `or` treats a
present `0` as absent), contradicting the claim that presence alone
overrides the default. -/
theorem c7_zero_requester_ignored :
    handle_download_complete { } 42
        { title := some "T", success := some false,
          requester_chat_id := some 0 } =
      (Except.ok (),
       [Eff.sendMessage 42 "❌ Download failed: T\nUnknown error"], []) ∧
    (0 : Int) ≠ 42 := by
  exact ⟨by rfl, by decide⟩

/-- Unconditional characterisation of the upload stage. -/
theorem uploadStage_char (env : Env) (target : Int) (d : EventData)
    (fp : String) (sz : Nat) (th : Option String) (fs : List String) :
    uploadStage env target d fp sz th fs =
      (if sz ≤ MAX_UPLOAD_BYTES then
         (if env.sendFileFail then (Except.error Err.transport, [], fs)
          else (Except.ok (),
                [Eff.sendFile target fp (format_video_caption d) th], fs))
       else (Except.error Err.typeError, [], fs ++ split_video fp sz)) := by
  by_cases h : sz ≤ MAX_UPLOAD_BYTES
  · rw [if_pos h]
    unfold uploadStage
    rw [if_pos h]
  · rw [if_neg h, uploadStage_big env target d fp sz th fs h]

/-- Full run of a delivery that reaches the upload stage: the result is
exactly the try-block's outcome, and the trace is the upload effect (when
the single upload happens) followed by one deletion attempt of the source
file and one of the thumbnail. -/
theorem handle_upload_run (env : Env) (chat : Int) (d : EventData) (fp : String)
    (hs : d.success.getD false = true) (hfp : d.file_path = some fp)
    (hne : fp ≠ "") (hex : fp ∈ env.fs0)
    (hth : ∀ t, env.thumbResult = some t → t ≠ fp ∧ t ≠ "") :
    (handle_download_complete env chat d).1 =
      (if env.size fp ≤ MAX_UPLOAD_BYTES then
         (if env.sendFileFail then Except.error Err.transport else Except.ok ())
       else Except.error Err.typeError) ∧
    (handle_download_complete env chat d).2.1 =
      (if env.size fp ≤ MAX_UPLOAD_BYTES ∧ env.sendFileFail = false then
         [Eff.sendFile (pyOrInt d.requester_chat_id chat) fp
           (format_video_caption d) env.thumbResult]
       else [])
      ++ (if env.removeFails fp then [Eff.logWarn fp] else [Eff.remove fp])
      ++ (match env.thumbResult with
          | some t => if env.removeFails t then [Eff.logWarn t] else [Eff.remove t]
          | none => []) := by
  have hgd : d.file_path.getD "" = fp := by rw [hfp]; rfl
  have hff : ¬ (d.file_path.getD "" = "" ∨ d.file_path.getD "" ∉ env.fs0) := by
    simp [hgd, hne, hex]
  rw [handle_success_eq env chat d hs hff, hgd]
  rcases henv : env.thumbResult with _ | t
  · simp only [uploadStage_char, _safe_remove]
    split_ifs <;> simp_all [List.mem_append]
  · obtain ⟨htfp, htne⟩ := hth t henv
    simp only [uploadStage_char, _safe_remove]
    split_ifs <;>
      simp_all [List.mem_append, List.erase_cons, List.mem_cons]

/-- C1: every delivery that reaches the upload stage (success flag true,
nonempty existing file path, thumbnail temp path fresh when present) makes
exactly one deletion attempt on the source file and exactly one on the
thumbnail, on every exit path; the trace splits into the upload phase
followed by the cleanup phase (so cleanup completes before the invocation
ends); the invocation's outcome is exactly the try-block's outcome — a
transport or `TypeError` exception propagates unchanged after cleanup and
a deletion failure never replaces it, being logged instead. -/
theorem c1_cleanup_exactly_once (env : Env) (chat : Int) (d : EventData)
    (fp : String)
    (hs : d.success.getD false = true) (hfp : d.file_path = some fp)
    (hne : fp ≠ "") (hex : fp ∈ env.fs0)
    (hth : ∀ t, env.thumbResult = some t → t ≠ fp ∧ t ≠ "") :
    removalCount (handle_download_complete env chat d).2.1 fp = 1 ∧
    (∀ t, env.thumbResult = some t →
        removalCount (handle_download_complete env chat d).2.1 t = 1) ∧
    (∃ a b, (handle_download_complete env chat d).2.1 = a ++ b ∧
        (∀ e ∈ a, e.isCleanup = false) ∧ (∀ e ∈ b, e.isCleanup = true)) ∧
    (handle_download_complete env chat d).1 =
      (if env.size fp ≤ MAX_UPLOAD_BYTES then
         (if env.sendFileFail then Except.error Err.transport else Except.ok ())
       else Except.error Err.typeError) ∧
    (env.removeFails fp = true →
        Eff.logWarn fp ∈ (handle_download_complete env chat d).2.1) := by
  obtain ⟨hres, htr⟩ := handle_upload_run env chat d fp hs hfp hne hex hth
  refine ⟨?_, ?_, ?_, hres, ?_⟩
  · rw [htr]
    rcases henv : env.thumbResult with _ | t
    · dsimp only
      split_ifs <;> simp [removalCount, isRemovalOf]
    · obtain ⟨htfp, _⟩ := hth t henv
      have hfpt : fp ≠ t := Ne.symm htfp
      dsimp only
      split_ifs <;> simp [removalCount, isRemovalOf, htfp, hfpt]
  · intro t ht
    obtain ⟨htfp, _⟩ := hth t ht
    have hfpt : fp ≠ t := Ne.symm htfp
    rw [htr, ht]
    dsimp only
    split_ifs <;> simp [removalCount, isRemovalOf, htfp, hfpt]
  · refine ⟨(if env.size fp ≤ MAX_UPLOAD_BYTES ∧ env.sendFileFail = false then
        [Eff.sendFile (pyOrInt d.requester_chat_id chat) fp
          (format_video_caption d) env.thumbResult]
      else []),
      (if env.removeFails fp then [Eff.logWarn fp] else [Eff.remove fp])
        ++ (match env.thumbResult with
            | some t => if env.removeFails t then [Eff.logWarn t]
                        else [Eff.remove t]
            | none => []), ?_, ?_, ?_⟩
    · rw [htr, List.append_assoc]
    · intro e he
      by_cases h1 : env.size fp ≤ MAX_UPLOAD_BYTES ∧ env.sendFileFail = false
      · rw [if_pos h1] at he
        simp at he
        subst he
        rfl
      · rw [if_neg h1] at he
        simp at he
    · intro e he
      rcases List.mem_append.mp he with h1 | h2
      · split_ifs at h1 <;> simp_all [Eff.isCleanup]
      · rcases henv : env.thumbResult with _ | t <;> rw [henv] at h2
        · simp at h2
        · dsimp only at h2
          split_ifs at h2 <;> simp_all [Eff.isCleanup]
  · intro hrf
    rw [htr]
    simp [hrf, List.mem_append]

/-- Concrete environment exercising the upload path: the file exists, a
thumbnail was prepared, and deleting the source file fails. -/
def envW : Env :=
  { fs0 := ["/v.mp4"], size := fun _ => 100, thumbResult := some "/t.jpg",
    removeFails := fun p => p == "/v.mp4" }

/-- Concrete successful download payload for the witness runs. -/
def dW : EventData :=
  { success := some true, title := some "T", file_path := some "/v.mp4" }

/-- Witness for C1: a concrete single-file delivery with a thumbnail whose
source deletion fails (and is logged). -/
theorem c1_cleanup_exactly_once_witness :
    (dW.success.getD false = true) ∧ (dW.file_path = some "/v.mp4") ∧
    ("/v.mp4" ≠ "") ∧ ("/v.mp4" ∈ envW.fs0) ∧
    (∀ t, envW.thumbResult = some t → t ≠ "/v.mp4" ∧ t ≠ "") ∧
    (removalCount (handle_download_complete envW (-100111) dW).2.1 "/v.mp4"
        = 1 ∧
     (∀ t, envW.thumbResult = some t →
        removalCount (handle_download_complete envW (-100111) dW).2.1 t = 1) ∧
     (∃ a b, (handle_download_complete envW (-100111) dW).2.1 = a ++ b ∧
        (∀ e ∈ a, e.isCleanup = false) ∧ (∀ e ∈ b, e.isCleanup = true)) ∧
     (handle_download_complete envW (-100111) dW).1 =
       (if envW.size "/v.mp4" ≤ MAX_UPLOAD_BYTES then
          (if envW.sendFileFail then Except.error Err.transport
           else Except.ok ())
        else Except.error Err.typeError) ∧
     (envW.removeFails "/v.mp4" = true →
        Eff.logWarn "/v.mp4" ∈
          (handle_download_complete envW (-100111) dW).2.1)) :=
  ⟨by decide, by decide, by decide, by decide,
   by
     intro t ht
     simp [envW] at ht
     subst ht
     exact ⟨by decide, by decide⟩,
   c1_cleanup_exactly_once envW (-100111) dW "/v.mp4" (by decide) (by decide)
     (by decide) (by decide)
     (by
       intro t ht
       simp [envW] at ht
       subst ht
       exact ⟨by decide, by decide⟩)⟩

/-- C7 amended: when the payload's requester destination is present and
non-zero, every transport send of the invocation (failure notice,
file-not-found notice, single upload) goes to it; when it is absent — or
present but zero, which Python's `or` treats as absent — every send goes to
the default destination. -/
theorem c7_requester_destination_amended :
    (∀ (env : Env) (chat : Int) (d : EventData) (r : Int),
        d.requester_chat_id = some r → r ≠ 0 →
        ∀ e ∈ (handle_download_complete env chat d).2.1, ∀ c,
          e.dest = some c → c = r) ∧
    (∀ (env : Env) (chat : Int) (d : EventData),
        d.requester_chat_id = none →
        ∀ e ∈ (handle_download_complete env chat d).2.1, ∀ c,
          e.dest = some c → c = chat) ∧
    (∀ (env : Env) (chat : Int) (d : EventData),
        d.requester_chat_id = some 0 →
        ∀ e ∈ (handle_download_complete env chat d).2.1, ∀ c,
          e.dest = some c → c = chat) := by
  refine ⟨?_, ?_, ?_⟩
  · intro env chat d r hr hr0 e he c hc
    have h := handle_dest env chat d e he c hc
    rw [hr] at h
    simpa [pyOrInt, hr0] using h
  · intro env chat d hr e he c hc
    have h := handle_dest env chat d e he c hc
    rw [hr] at h
    simpa [pyOrInt] using h
  · intro env chat d hr e he c hc
    have h := handle_dest env chat d e he c hc
    rw [hr] at h
    simpa [pyOrInt] using h

/-- Witness for C7 (amended): a failed download with requester destination
999 sends its notice to 999. -/
theorem c7_requester_destination_amended_witness :
    (({ success := some false, title := some "T",
        requester_chat_id := some 999 } : EventData).requester_chat_id
      = some 999) ∧
    ((999 : Int) ≠ 0) ∧
    (∀ e ∈ (handle_download_complete { } (-100111)
        { success := some false, title := some "T",
          requester_chat_id := some 999 }).2.1, ∀ c,
      e.dest = some c → c = 999) :=
  ⟨by decide, by decide,
   c7_requester_destination_amended.1 { } (-100111)
     { success := some false, title := some "T",
       requester_chat_id := some 999 } 999 (by decide) (by decide)⟩

/-- C9: the crop step returns the image unmodified when the target and
image ratios differ by less than 0.01; otherwise, when the image is wider
than the target ratio it crops symmetric left/right margins to width
`⌊img_h * (ref_w/ref_h)⌋` (full height, margins within one pixel of each
other), and otherwise symmetric top/bottom margins to height
`⌊img_w / (ref_w/ref_h)⌋` (full width). -/
theorem c9_crop_policy (img_w img_h target_w target_h : Nat)
    (hw : 0 < img_w) (hh : 0 < img_h) (htw : 0 < target_w)
    (hth : 0 < target_h) :
    (|(target_w : ℚ) / target_h - (img_w : ℚ) / img_h| < 1 / 100 →
      _crop_to_ratio img_w img_h target_w target_h = CropResult.unchanged) ∧
    (¬ |(target_w : ℚ) / target_h - (img_w : ℚ) / img_h| < 1 / 100 →
      (target_w : ℚ) / target_h < (img_w : ℚ) / img_h →
      ∃ L W : Int,
        _crop_to_ratio img_w img_h target_w target_h
          = CropResult.box L 0 (L + W) (img_h : Int) ∧
        W = ⌊(img_h : ℚ) * ((target_w : ℚ) / target_h)⌋ ∧
        0 ≤ L ∧ L ≤ (img_w : Int) - (L + W) ∧
        (img_w : Int) - (L + W) ≤ L + 1) ∧
    (¬ |(target_w : ℚ) / target_h - (img_w : ℚ) / img_h| < 1 / 100 →
      ¬ (target_w : ℚ) / target_h < (img_w : ℚ) / img_h →
      ∃ U H : Int,
        _crop_to_ratio img_w img_h target_w target_h
          = CropResult.box 0 U (img_w : Int) (U + H) ∧
        H = ⌊(img_w : ℚ) / ((target_w : ℚ) / target_h)⌋ ∧
        0 ≤ U ∧ U ≤ (img_h : Int) - (U + H) ∧
        (img_h : Int) - (U + H) ≤ U + 1) := by
  have hhq : (0 : ℚ) < (img_h : ℚ) := by exact_mod_cast hh
  have hthq : (0 : ℚ) < (target_h : ℚ) := by exact_mod_cast hth
  have htq : (0 : ℚ) < (target_w : ℚ) / target_h :=
    div_pos (by exact_mod_cast htw) hthq
  refine ⟨?_, ?_, ?_⟩
  · intro h1
    simp only [_crop_to_ratio]
    rw [if_pos h1]
  · intro h1 h2
    have hmul : (img_h : ℚ) * ((target_w : ℚ) / target_h) < (img_w : ℚ) := by
      rw [mul_comm]
      exact (lt_div_iff₀ hhq).mp h2
    have hW : ⌊(img_h : ℚ) * ((target_w : ℚ) / target_h)⌋ < (img_w : Int) := by
      have hle := Int.floor_le ((img_h : ℚ) * ((target_w : ℚ) / target_h))
      have : (⌊(img_h : ℚ) * ((target_w : ℚ) / target_h)⌋ : ℚ) < (img_w : ℚ) :=
        lt_of_le_of_lt hle hmul
      exact_mod_cast this
    have hW0 : 0 ≤ ⌊(img_h : ℚ) * ((target_w : ℚ) / target_h)⌋ :=
      Int.floor_nonneg.mpr (le_of_lt (mul_pos hhq htq))
    simp only [_crop_to_ratio]
    rw [if_neg h1, if_pos h2]
    have hfd : Int.fdiv
        ((img_w : Int) - ⌊(img_h : ℚ) * ((target_w : ℚ) / target_h)⌋) 2
      = ((img_w : Int) - ⌊(img_h : ℚ) * ((target_w : ℚ) / target_h)⌋) / 2 :=
      Int.fdiv_eq_ediv _ (by norm_num)
    refine ⟨_, _, rfl, rfl, ?_, ?_, ?_⟩ <;> rw [hfd] <;> omega
  · intro h1 h2
    have hne2 : (img_w : ℚ) / img_h ≠ (target_w : ℚ) / target_h := by
      intro heq
      exact h1 (by rw [heq]; simp)
    have hrt : (img_w : ℚ) / img_h < (target_w : ℚ) / target_h :=
      lt_of_le_of_ne (not_lt.mp h2) hne2
    have hdiv : (img_w : ℚ) / ((target_w : ℚ) / target_h) < (img_h : ℚ) := by
      rw [div_lt_iff₀ htq, mul_comm]
      exact (div_lt_iff₀ hhq).mp hrt
    have hH : ⌊(img_w : ℚ) / ((target_w : ℚ) / target_h)⌋ < (img_h : Int) := by
      have hle := Int.floor_le ((img_w : ℚ) / ((target_w : ℚ) / target_h))
      have : (⌊(img_w : ℚ) / ((target_w : ℚ) / target_h)⌋ : ℚ) < (img_h : ℚ) :=
        lt_of_le_of_lt hle hdiv
      exact_mod_cast this
    have hH0 : 0 ≤ ⌊(img_w : ℚ) / ((target_w : ℚ) / target_h)⌋ :=
      Int.floor_nonneg.mpr (div_nonneg (by positivity) (le_of_lt htq))
    simp only [_crop_to_ratio]
    rw [if_neg h1, if_neg (not_lt.mpr (le_of_lt hrt))]
    have hfd : Int.fdiv
        ((img_h : Int) - ⌊(img_w : ℚ) / ((target_w : ℚ) / target_h)⌋) 2
      = ((img_h : Int) - ⌊(img_w : ℚ) / ((target_w : ℚ) / target_h)⌋) / 2 :=
      Int.fdiv_eq_ediv _ (by norm_num)
    refine ⟨_, _, rfl, rfl, ?_, ?_, ?_⟩ <;> rw [hfd] <;> omega

/-- Witness for C9 at a 400×300 image and a 1920×1080 reference: the
ratios differ by 4/9, the image is taller than 16:9, and the crop is a
top/bottom box. -/
theorem c9_crop_policy_witness :
    0 < 400 ∧ 0 < 300 ∧ 0 < 1920 ∧ 0 < 1080 ∧
    ((|(1920 : ℚ) / 1080 - (400 : ℚ) / 300| < 1 / 100 →
       _crop_to_ratio 400 300 1920 1080 = CropResult.unchanged) ∧
     (¬ |(1920 : ℚ) / 1080 - (400 : ℚ) / 300| < 1 / 100 →
       (1920 : ℚ) / 1080 < (400 : ℚ) / 300 →
       ∃ L W : Int,
         _crop_to_ratio 400 300 1920 1080
           = CropResult.box L 0 (L + W) (300 : Int) ∧
         W = ⌊(300 : ℚ) * ((1920 : ℚ) / 1080)⌋ ∧
         0 ≤ L ∧ L ≤ (400 : Int) - (L + W) ∧
         (400 : Int) - (L + W) ≤ L + 1) ∧
     (¬ |(1920 : ℚ) / 1080 - (400 : ℚ) / 300| < 1 / 100 →
       ¬ (1920 : ℚ) / 1080 < (400 : ℚ) / 300 →
       ∃ U H : Int,
         _crop_to_ratio 400 300 1920 1080
           = CropResult.box 0 U (400 : Int) (U + H) ∧
         H = ⌊(400 : ℚ) / ((1920 : ℚ) / 1080)⌋ ∧
         0 ≤ U ∧ U ≤ (300 : Int) - (U + H) ∧
         (300 : Int) - (U + H) ≤ U + 1)) := by
  refine ⟨by norm_num, by norm_num, by norm_num, by norm_num, ?_⟩
  have h := c9_crop_policy 400 300 1920 1080
    (by norm_num) (by norm_num) (by norm_num) (by norm_num)
  convert h using 2
